import Mathlib

set_option maxRecDepth 4096

/-!
Shallow embedding of the Jira/Bugzilla sync engine
(`src/jbi/actions/default.py` and
`src/jbi/actions/default_with_assignee_and_status.py`).

The two remote clients (Bugzilla, Jira) are modelled as a `World` of
response functions; every remote call the engine makes is recorded in a
trace (`List Call`), and the engine's return value is an
`Except EngineError ActionResult` mirroring the Python return value /
raised exception.  Helper methods of `jbi.models` (not under `src/`) are
modelled from the spec and carry a doc comment saying so.
-/

namespace JBI

/-- JSON-ish value stored in a Jira response record.  Used only for the
`errors` / `errorMessages` / `key` entries; Python truthiness over these
values is `JVal.truthy`. -/
inductive JVal where
  | str (s : String)
  | bool (b : Bool)
  | null
deriving DecidableEq

/-- Python truthiness of a `JVal`. -/
def JVal.truthy : JVal → Bool
  | .str s => !s.isEmpty
  | .bool b => b
  | .null => false

/-- A Jira response record (Python `dict`), as an association list. -/
abbrev JDict := List (String × JVal)

/-- The create-issue response: "can be of the form: List or Dictionary"
(`default.py`, line 221). -/
inductive JiraCreateResponse where
  | dict (d : JDict)
  | list (xs : List JDict)

/-- Output of `DefaultExecutor.jira_fields` (`default.py`, lines 115-124):
`summary` always, `labels` only when `sync_whiteboard_labels`. `none`
means the key is absent from the dictionary. -/
structure JiraFields where
  summary : String
  labels : Option (List String)
deriving DecidableEq

/-- The merged creation payload built in `create_and_link_issue`
(`default.py`, lines 212-217). -/
structure CreateFields where
  summary : String
  labels : Option (List String)
  issuetype : String
  description : String
  project : String
deriving DecidableEq

/-- The `fields=` payload shapes passed to `update_issue_field` anywhere in
the two source files: the whole `jira_fields` dict, an assignee patch
(`none` = clear, i.e. Python `{"assignee": None}`), or a resolution patch. -/
inductive IssueFieldsPayload where
  | bugFields (f : JiraFields)
  | assignee (accountId : Option String)
  | resolution (value : String)
deriving DecidableEq

/-- One remote call made by the engine.  Key slots that Python may fill
with `None` (because `jira_response_create.get("key")` can be `None`) are
`Option String`. -/
inductive Call where
  | getComments (bugId : Nat)
  | createIssue (fields : CreateFields)
  | getBug (bugId : Nat)
  | deleteIssue (key : Option String)
  | updateBug (bugId : Nat) (addSeeAlsoUrl : String)
  | createRemoteLink (key : Option String) (url : String)
  | updateIssueField (key : Option String) (fields : IssueFieldsPayload)
  | addComment (key : String) (comment : String)
  | setIssueStatus (key : Option String) (status : String)
  | findUser (query : String)
deriving DecidableEq

/-- Is this call `bugzilla_client.update_bug`? -/
def Call.isUpdateBug : Call → Bool
  | .updateBug _ _ => true
  | _ => false

/-- Is this call `jira_client.create_or_update_issue_remote_links`? -/
def Call.isRemoteLink : Call → Bool
  | .createRemoteLink _ _ => true
  | _ => false

/-- Is this call `jira_client.create_issue`? -/
def Call.isCreateIssue : Call → Bool
  | .createIssue _ => true
  | _ => false

/-- Does this call mutate remote state (everything except the two reads
`get_comments` / `get_bug` and the `user_find_by_user_string` lookup)? -/
def Call.isMutation : Call → Bool
  | .getComments _ => false
  | .getBug _ => false
  | .findUser _ => false
  | _ => true

/-- Value stored in the structured part of an `ActionResult`: the response
of a remote call (opaque, represented by the call itself) or a list. -/
inductive RVal where
  | resp (c : Call)
  | list (xs : List RVal)

/-- `ActionResult`: "a pair (boolean: did-something-happen, structured
record of remote responses)" (`jbi/__init__.py`, modelled per the spec). -/
abbrev ActionResult := Bool × List (String × RVal)

/-- Errors the engine can raise: `ActionError` (fatal validation error,
`default.py` line 232) and the uncaught Python `IndexError` from indexing
an empty list. -/
inductive EngineError where
  | actionError (msg : String)
  | indexError
deriving DecidableEq

/-- Bug snapshot.  Fields consumed by the two source files; derived
attributes that live in `jbi.models` (not under `src/`) are modelled as
functions below. -/
structure BugzillaBug where
  id : Nat
  summary : String
  status : String
  resolution : String
  assigned_to : String
  whiteboard : String
  bug_type : String
  see_also : List String
  comment : Option String
deriving DecidableEq

/-- Webhook event: trigger target and set of changed field names
(`none` when the payload carries no change list). -/
structure BugzillaWebhookEvent where
  target : String
  changed : Option (List String)
deriving DecidableEq

/-- Modelled from the spec: `event.changed_fields()` of `jbi.models`
(not under `src/`) — "the set of changed field names (empty for
creation)"; `None` when absent, hence the `or []` at its call site. -/
def BugzillaWebhookEvent.changed_fields (e : BugzillaWebhookEvent) :
    Option (List String) :=
  e.changed

/-- Modelled from the spec: `settings.jira_base_url` of `jbi.environment`
(not under `src/`). -/
def jira_base_url : String := "https://j/"

/-- Modelled from the spec: `settings.bugzilla_base_url` of
`jbi.environment` (not under `src/`). -/
def bugzilla_base_url : String := "https://bugzilla.example.com"

/-- Modelled from the spec: the Link Resolver
(`BugzillaBug.extract_from_see_also` in `jbi.models`, not under `src/`):
"Parses the bug's reference field (a collection of URLs) for one matching
the configured issue-tracker base URL pattern, extracting the key
segment"; first match; "Returns none if absent or malformed". -/
def BugzillaBug.extract_from_see_also (bug : BugzillaBug) : Option String :=
  (bug.see_also.filterMap fun url =>
    let pre := jira_base_url ++ "browse/"
    if pre.1.isPrefixOf url.1 && pre.length < url.length then
      some (String.mk (url.1.drop pre.length))
    else none).head?

/-- Modelled from the spec: `BugzillaBug.get_jira_labels` in `jbi.models`
(not under `src/`) — "a whiteboard-derived label set". -/
def BugzillaBug.get_jira_labels (bug : BugzillaBug) : List String :=
  (bug.whiteboard.splitOn " ").filter (fun s => !s.isEmpty)

/-- Modelled from the spec: `BugzillaBug.issue_type` in `jbi.models`
(not under `src/`) — "`issuetype` is derived from a bug-type
classifier". -/
def BugzillaBug.issue_type (bug : BugzillaBug) : String :=
  bug.bug_type

/-- Modelled from the spec: `BugzillaBug.map_event_as_comment` in
`jbi.models` (not under `src/`) — "for a `comment` target event, produce
exactly one formatted comment string from the event's comment payload". -/
def BugzillaBug.map_event_as_comment (bug : BugzillaBug)
    (_event : BugzillaWebhookEvent) : String :=
  "(comment): " ++ bug.comment.getD ""

/-- Modelled from the spec: `BugzillaBug.map_changes_as_comments` in
`jbi.models` (not under `src/`) — "for a `bug` target event with field
changes, produce zero or more formatted comment strings, one per loggable
change category (the variant reconciler ... suppresses status/assignee
categories)". -/
def BugzillaBug.map_changes_as_comments (_bug : BugzillaBug)
    (e : BugzillaWebhookEvent) (status_log_enabled : Bool)
    (assignee_log_enabled : Bool) : List String :=
  (e.changed.getD []).filterMap fun f =>
    if f == "status" || f == "resolution" then
      if status_log_enabled then some ("Changed: " ++ f) else none
    else if f == "assigned_to" then
      if assignee_log_enabled then some ("Changed: " ++ f) else none
    else
      some ("Changed: " ++ f)

/-- Python truthiness of an optional string (`if not linked_issue_key`). -/
def optStrTruthy : Option String → Bool
  | none => false
  | some s => !s.isEmpty

/-- How Python renders an optional string inside an f-string
(`None` prints as "None"). -/
def optStrRender : Option String → String
  | none => "None"
  | some s => s

/-- Responses of the two remote clients, plus the one transport failure
the reconciler handles (`IOError` on the assignee-set call,
`default_with_assignee_and_status.py` line 102). -/
structure World where
  getComments : Nat → List String
  createIssue : CreateFields → JiraCreateResponse
  getBug : Nat → BugzillaBug
  findUser : String → List String
  assigneeSetFails : Bool

/-- Configuration of `DefaultExecutor.__init__` (`default.py`,
lines 43-49). -/
structure DefaultExecutor where
  jira_project_key : String
  sync_whiteboard_labels : Bool := true

/-- The virtual methods `DefaultExecutor.jira_comments_for_update` and
`DefaultExecutor.update_issue` that `AssigneeAndStatusExecutor`
overrides; the hook returns the trace of remote calls it performs. -/
structure Variant where
  jira_comments_for_update :
    BugzillaBug → BugzillaWebhookEvent → List String
  update_issue :
    World → BugzillaBug → BugzillaWebhookEvent → Option String → Bool →
      List Call

/-- `DefaultExecutor.jira_fields` (`default.py`, lines 115-124). -/
def DefaultExecutor.jira_fields (ex : DefaultExecutor)
    (bug : BugzillaBug) : JiraFields :=
  { summary := bug.summary
    labels :=
      if ex.sync_whiteboard_labels then some bug.get_jira_labels else none }

/-- `JIRA_DESCRIPTION_CHAR_LIMIT` (`default.py`, line 22). -/
def JIRA_DESCRIPTION_CHAR_LIMIT : Nat := 32767

/-- The creation payload of `create_and_link_issue` (`default.py`,
lines 209-217): `jira_fields` merged with `issuetype`, the truncated
`description` (`comment_list[0].text[:JIRA_DESCRIPTION_CHAR_LIMIT]`) and
`project`. -/
def create_issue_fields (ex : DefaultExecutor) (bug : BugzillaBug)
    (first_comment_text : String) : CreateFields :=
  { summary := (ex.jira_fields bug).summary
    labels := (ex.jira_fields bug).labels
    issuetype := bug.issue_type
    description := first_comment_text.take JIRA_DESCRIPTION_CHAR_LIMIT
    project := ex.jira_project_key }

/-- Normalization of the create response (`default.py`, lines 221-224):
"if a list is returned, get the first item"; indexing an empty list is a
Python `IndexError`. -/
def normalize_create_response :
    JiraCreateResponse → Except EngineError JDict
  | .dict d => .ok d
  | .list [] => .error .indexError
  | .list (d :: _) => .ok d

/-- The error-indicator check of `create_and_link_issue` (`default.py`,
lines 226-231): some key among `errors` / `errorMessages` has truthy
content. -/
def has_error_indicators (d : JDict) : Bool :=
  d.any fun p => (p.1 == "errors" || p.1 == "errorMessages") && p.2.truthy

/-- `jira_response_create.get("key")` (`default.py`, line 234); a
non-string value under `key` is modelled like an absent key. -/
def response_key (d : JDict) : Option String :=
  match d.find? (fun p => p.1 == "key") with
  | some (_, .str s) => some s
  | _ => none

/-- `DefaultExecutor.create_and_link_issue` (`default.py`,
lines 190-293), returning the Python result (or raised error) together
with the trace of remote calls in program order. -/
def create_and_link_issue (ex : DefaultExecutor) (v : Variant) (w : World)
    (bug : BugzillaBug) (event : BugzillaWebhookEvent) :
    Except EngineError ActionResult × List Call :=
  match w.getComments bug.id with
  | [] => (.error .indexError, [.getComments bug.id])
  | first :: _ =>
    let fields := create_issue_fields ex bug first
    let tr0 := [Call.getComments bug.id, Call.createIssue fields]
    match normalize_create_response (w.createIssue fields) with
    | .error e => (.error e, tr0)
    | .ok d =>
      if has_error_indicators d then
        (.error (.actionError "response contains error"), tr0)
      else
        let keyOpt := response_key d
        let bug2 := w.getBug bug.id
        let tr1 := tr0 ++ [Call.getBug bug.id]
        let keyInBugzilla := bug2.extract_from_see_also
        if keyInBugzilla.isSome && keyOpt != keyInBugzilla then
          let delCall := Call.deleteIssue keyOpt
          (.ok (true, [("jira_response", .resp delCall)]), tr1 ++ [delCall])
        else
          let jiraUrl := jira_base_url ++ "browse/" ++ optStrRender keyOpt
          let bzCall := Call.updateBug bug2.id jiraUrl
          let bugzillaUrl :=
            bugzilla_base_url ++ "/show_bug.cgi?id=" ++ toString bug2.id
          let rlCall := Call.createRemoteLink keyOpt bugzillaUrl
          let hookCalls := v.update_issue w bug2 event keyOpt true
          (.ok (true, [("bugzilla_response", .resp bzCall),
                       ("jira_response", .resp rlCall)]),
           tr1 ++ [bzCall, rlCall] ++ hookCalls)

/-- `DefaultExecutor.bug_create_or_update` (`default.py`,
lines 143-188). -/
def bug_create_or_update (ex : DefaultExecutor) (v : Variant) (w : World)
    (bug : BugzillaBug) (event : BugzillaWebhookEvent) :
    Except EngineError ActionResult × List Call :=
  let linked := bug.extract_from_see_also
  if !optStrTruthy linked then
    create_and_link_issue ex v w bug event
  else
    let key := linked.getD ""
    let updCall :=
      Call.updateIssueField (some key) (.bugFields (ex.jira_fields bug))
    let comments := v.jira_comments_for_update bug event
    let hookCalls := v.update_issue w bug event (some key) false
    (.ok (true, [("jira_responses",
        .list [.resp updCall,
               .list (comments.map fun c => .resp (.addComment key c))])]),
     updCall :: comments.map (fun c => Call.addComment key c) ++ hookCalls)

/-- `DefaultExecutor.comment_create_or_noop` (`default.py`,
lines 73-113). -/
def comment_create_or_noop (_ex : DefaultExecutor) (bug : BugzillaBug)
    (event : BugzillaWebhookEvent) : ActionResult × List Call :=
  let linked := bug.extract_from_see_also
  if !optStrTruthy linked then
    ((false, []), [])
  else
    match bug.comment with
    | none => ((false, []), [])
    | some _ =>
      let key := linked.getD ""
      let c := bug.map_event_as_comment event
      ((true, [("jira_response", .resp (.addComment key c))]),
       [.addComment key c])

/-- `DefaultExecutor.__call__` (`default.py`, lines 51-71). -/
def DefaultExecutor.call (ex : DefaultExecutor) (v : Variant) (w : World)
    (bug : BugzillaBug) (event : BugzillaWebhookEvent) :
    Except EngineError ActionResult × List Call :=
  if event.target == "comment" then
    let r := comment_create_or_noop ex bug event
    (.ok r.1, r.2)
  else if event.target == "bug" then
    bug_create_or_update ex v w bug event
  else
    (.ok (false, []), [])

/-- The base class `DefaultExecutor.update_issue` does nothing
(`default.py`, lines 134-141), and its `jira_comments_for_update`
maps all change categories (`default.py`, lines 126-132). -/
def defaultVariant : Variant :=
  { jira_comments_for_update := fun bug e =>
      bug.map_changes_as_comments e true true
    update_issue := fun _ _ _ _ _ => [] }

/-- Configuration of `AssigneeAndStatusExecutor.__init__`
(`default_with_assignee_and_status.py`, lines 35-39). -/
structure AssigneeAndStatusExecutor where
  base : DefaultExecutor
  status_map : List (String × String)
  resolution_map : List (String × String)

/-- The local `clear_assignee` closure
(`default_with_assignee_and_status.py`, lines 73-79): "New tickets
already have no assignee", so it calls `update_issue_field` with
`{"assignee": None}` only when not `is_new`. -/
def clear_assignee (is_new : Bool) (linked_issue_key : Option String) :
    List Call :=
  if !is_new then
    [Call.updateIssueField linked_issue_key (.assignee none)]
  else []

/-- The assignee block of `AssigneeAndStatusExecutor.update_issue`
(`default_with_assignee_and_status.py`, lines 81-116), as the trace of
remote calls it performs.  A transport failure of the assignee-set call
(`World.assigneeSetFails`) is caught and answered with
`clear_assignee`. -/
def assignee_rule (w : World) (bug : BugzillaBug)
    (changed_fields : List String) (linked_issue_key : Option String)
    (is_new : Bool) : List Call :=
  if is_new || changed_fields.contains "assigned_to" then
    if bug.assigned_to == "nobody@mozilla.org" then
      clear_assignee is_new linked_issue_key
    else
      let users := w.findUser bug.assigned_to
      Call.findUser bug.assigned_to ::
        (if users.length == 1 then
          let setCall :=
            Call.updateIssueField linked_issue_key
              (.assignee (some (users.headD "")))
          if w.assigneeSetFails then
            setCall :: clear_assignee is_new linked_issue_key
          else
            [setCall]
        else
          clear_assignee is_new linked_issue_key)
  else []

/-- The status/resolution block of `AssigneeAndStatusExecutor.update_issue`
(`default_with_assignee_and_status.py`, lines 118-166).  `dict.get` is
association-list lookup; `if jira_resolution:` / `if jira_status:` are
Python truthiness, so an empty mapped string behaves like a missing
key; `bz_resolution or bug.status` picks the status when the resolution
is empty. -/
def status_resolution_rule (ex : AssigneeAndStatusExecutor)
    (bug : BugzillaBug) (changed_fields : List String)
    (linked_issue_key : Option String) (is_new : Bool) : List Call :=
  if is_new || changed_fields.contains "status"
      || changed_fields.contains "resolution" then
    let bz_resolution := bug.resolution
    let jira_resolution := ex.resolution_map.lookup bz_resolution
    let resCalls :=
      if optStrTruthy jira_resolution then
        [Call.updateIssueField linked_issue_key
          (.resolution (jira_resolution.getD ""))]
      else []
    let bz_status :=
      if bz_resolution.isEmpty then bug.status else bz_resolution
    let jira_status := ex.status_map.lookup bz_status
    let stCalls :=
      if optStrTruthy jira_status then
        [Call.setIssueStatus linked_issue_key (jira_status.getD "")]
      else []
    resCalls ++ stCalls
  else []

/-- `AssigneeAndStatusExecutor.update_issue`
(`default_with_assignee_and_status.py`, lines 51-166): the assignee block
followed by the status/resolution block, over
`event.changed_fields() or []`. -/
def AssigneeAndStatusExecutor.update_issue
    (ex : AssigneeAndStatusExecutor) (w : World) (bug : BugzillaBug)
    (event : BugzillaWebhookEvent) (linked_issue_key : Option String)
    (is_new : Bool) : List Call :=
  let changed := (event.changed_fields).getD []
  assignee_rule w bug changed linked_issue_key is_new ++
    status_resolution_rule ex bug changed linked_issue_key is_new

/-- `AssigneeAndStatusExecutor.jira_comments_for_update`
(`default_with_assignee_and_status.py`, lines 41-49) suppresses the
status and assignee change categories. -/
def assigneeStatusVariant (ex : AssigneeAndStatusExecutor) : Variant :=
  { jira_comments_for_update := fun bug e =>
      bug.map_changes_as_comments e false false
    update_issue := ex.update_issue }

end JBI

namespace JBI

/-! ## Shared helper lemmas and concrete fixtures -/

theorem isEmpty_false_of_ne {s : String} (h : s ≠ "") : s.isEmpty = false := by
  cases he : s.isEmpty
  · rfl
  · exact absurd ((String.isEmpty_iff s).mp he) h

/-- A concrete executor configuration used by the witnesses. -/
def exW : DefaultExecutor := { jira_project_key := "JBI" }

/-- Same, with whiteboard-label syncing disabled. -/
def exNoLabels : DefaultExecutor :=
  { jira_project_key := "JBI", sync_whiteboard_labels := false }

/-- A concrete bug with no cross-link. -/
def bugUnlinked : BugzillaBug :=
  { id := 42, summary := "crash on startup", status := "NEW",
    resolution := "", assigned_to := "dev@example.com",
    whiteboard := "foo bar", bug_type := "defect", see_also := [],
    comment := some "it crashed" }

/-- A concrete bug linked to issue JBI-1, with no comment payload. -/
def bugLinked : BugzillaBug :=
  { bugUnlinked with
    see_also := ["https://j/browse/JBI-1"], comment := none }

/-- A concrete comment-target event. -/
def evComment : BugzillaWebhookEvent := { target := "comment", changed := none }

/-- A concrete bug-target event with a status change. -/
def evBug : BugzillaWebhookEvent := { target := "bug", changed := some ["status"] }

/-- A concrete event with a target that is neither comment nor bug. -/
def evOther : BugzillaWebhookEvent :=
  { target := "attachment", changed := none }

/-- A concrete world with benign responses. -/
def wBase : World :=
  { getComments := fun _ => ["first comment"]
    createIssue := fun _ => .dict [("key", .str "JBI-2")]
    getBug := fun _ => bugUnlinked
    findUser := fun _ => ["acct-1"]
    assigneeSetFails := false }

/-! ## Claims -/

/-- C10: for every event whose target is neither "comment" nor "bug", the
executor's call operation performs no remote calls and returns exactly
`(False, {})`. -/
theorem c10_ignore_other_targets (ex : DefaultExecutor) (v : Variant)
    (w : World) (bug : BugzillaBug) (event : BugzillaWebhookEvent)
    (h1 : event.target ≠ "comment") (h2 : event.target ≠ "bug") :
    ex.call v w bug event = (.ok (false, []), []) := by
  simp [DefaultExecutor.call, h1, h2]

theorem c10_witness :
    ("attachment" : String) ≠ "comment" ∧ ("attachment" : String) ≠ "bug" ∧
      exW.call defaultVariant wBase bugUnlinked evOther =
        (.ok (false, []), []) :=
  ⟨by decide, by decide,
   c10_ignore_other_targets exW defaultVariant wBase bugUnlinked evOther
     (by decide) (by decide)⟩

/-- C4: a comment-target event on a bug with no extracted cross-link, and
likewise a linked bug whose event carries no comment payload, makes
`comment_create_or_noop` perform zero remote calls and return exactly
`(False, {})`. -/
theorem c4_comment_noop (ex : DefaultExecutor) (bug : BugzillaBug)
    (event : BugzillaWebhookEvent)
    (h : optStrTruthy bug.extract_from_see_also = false ∨
      bug.comment = none) :
    comment_create_or_noop ex bug event = ((false, []), []) := by
  unfold comment_create_or_noop
  rcases h with h | h
  · simp [h]
  · cases htr : optStrTruthy bug.extract_from_see_also
    · simp [htr]
    · simp [htr, h]

theorem c4_witness :
    comment_create_or_noop exW bugUnlinked evComment = ((false, []), []) ∧
    comment_create_or_noop exW bugLinked evComment = ((false, []), []) :=
  ⟨c4_comment_noop exW bugUnlinked evComment (Or.inl (by decide)),
   c4_comment_noop exW bugLinked evComment (Or.inr rfl)⟩

/-- C6: with `sync_whiteboard_labels = false` the `labels` key is absent
from both the update payload (`jira_fields`) and the creation payload
(`create_issue_fields`), regardless of the bug's whiteboard; with the
flag true, `labels` is the whiteboard-derived label set. -/
theorem c6_label_toggle (ex : DefaultExecutor) (bug : BugzillaBug)
    (t : String) :
    (ex.sync_whiteboard_labels = false →
      (ex.jira_fields bug).labels = none ∧
      (create_issue_fields ex bug t).labels = none) ∧
    (ex.sync_whiteboard_labels = true →
      (ex.jira_fields bug).labels = some bug.get_jira_labels ∧
      (create_issue_fields ex bug t).labels = some bug.get_jira_labels) := by
  constructor <;> intro h <;>
    simp [DefaultExecutor.jira_fields, create_issue_fields, h]

theorem c6_witness :
    exNoLabels.sync_whiteboard_labels = false ∧
    (exNoLabels.jira_fields bugUnlinked).labels = none ∧
    (create_issue_fields exNoLabels bugUnlinked "d").labels = none ∧
    (exW.jira_fields bugUnlinked).labels =
      some bugUnlinked.get_jira_labels :=
  ⟨rfl,
   ((c6_label_toggle exNoLabels bugUnlinked "d").1 rfl).1,
   ((c6_label_toggle exNoLabels bugUnlinked "d").1 rfl).2,
   ((c6_label_toggle exW bugUnlinked "d").2 rfl).1⟩

end JBI

namespace JBI

/-- Shared shape of the update path of `bug_create_or_update`
(`default.py`, lines 151-188): field update, then one comment per mapped
change, then the extension hook with `is_new=False`. -/
theorem linked_update_path_eq (ex : DefaultExecutor) (v : Variant)
    (w : World) (bug : BugzillaBug) (event : BugzillaWebhookEvent)
    (k : String) (hl : bug.extract_from_see_also = some k) (hk : k ≠ "") :
    bug_create_or_update ex v w bug event =
      (.ok (true, [("jira_responses", .list
          [.resp (.updateIssueField (some k)
             (.bugFields (ex.jira_fields bug))),
           .list ((v.jira_comments_for_update bug event).map
             fun c => .resp (.addComment k c))])]),
       Call.updateIssueField (some k) (.bugFields (ex.jira_fields bug)) ::
         ((v.jira_comments_for_update bug event).map
           fun c => Call.addComment k c) ++
         v.update_issue w bug event (some k) false) := by
  have hke : k.isEmpty = false := isEmpty_false_of_ne hk
  simp [bug_create_or_update, hl, optStrTruthy, hke]

/-- A concrete reconciler configuration used by the witnesses. -/
def aexW : AssigneeAndStatusExecutor :=
  { base := exW, status_map := [("FIXED", "Done")],
    resolution_map := [("FIXED", "Fixed")] }

/-- C2: for every bug snapshot whose reference field yields an existing
issue key, `bug_create_or_update` takes the update path: field update on
the linked key, the mapped change comments, and the extension hook with
`is_new = false`; the engine itself issues no `create_issue` call, so the
whole trace has none whenever the hook has none. -/
theorem c2_linked_routes_to_update (ex : DefaultExecutor) (v : Variant)
    (w : World) (bug : BugzillaBug) (event : BugzillaWebhookEvent)
    (k : String) (hl : bug.extract_from_see_also = some k)
    (hk : k ≠ "") :
    bug_create_or_update ex v w bug event =
      (.ok (true, [("jira_responses", .list
          [.resp (.updateIssueField (some k)
             (.bugFields (ex.jira_fields bug))),
           .list ((v.jira_comments_for_update bug event).map
             fun c => .resp (.addComment k c))])]),
       Call.updateIssueField (some k) (.bugFields (ex.jira_fields bug)) ::
         ((v.jira_comments_for_update bug event).map
           fun c => Call.addComment k c) ++
         v.update_issue w bug event (some k) false) ∧
    ((v.update_issue w bug event (some k) false).all
        (fun c => !c.isCreateIssue) = true →
      (bug_create_or_update ex v w bug event).2.all
        (fun c => !c.isCreateIssue) = true) := by
  refine ⟨linked_update_path_eq ex v w bug event k hl hk, fun hhook => ?_⟩
  rw [linked_update_path_eq ex v w bug event k hl hk]
  simp only [List.all_cons, List.all_append, List.all_map, hhook]
  simp [Call.isCreateIssue, Function.comp]

theorem c2_witness :
    bugLinked.extract_from_see_also = some "JBI-1" ∧
    (bug_create_or_update exW (assigneeStatusVariant aexW) wBase bugLinked
        evBug).2.all (fun c => !c.isCreateIssue) = true :=
  ⟨by decide,
   (c2_linked_routes_to_update exW (assigneeStatusVariant aexW) wBase
      bugLinked evBug "JBI-1" (by decide) (by decide)).2 (by decide)⟩

/-- C5: the creation payload's description is the first comment's text
truncated to exactly the first `JIRA_DESCRIPTION_CHAR_LIMIT` characters
(text at or below the limit is unchanged, longer text is cut exactly at
the limit), and that payload is what the create path sends; comments
posted in the update flow are posted verbatim, never truncated. -/
theorem c5_description_truncation (ex : DefaultExecutor) (v : Variant)
    (w : World) (bug bug2 : BugzillaBug) (event : BugzillaWebhookEvent)
    (t : String) (rest : List String) (k : String)
    (hcm : w.getComments bug.id = t :: rest)
    (hl : bug2.extract_from_see_also = some k) (hk : k ≠ "") :
    (create_issue_fields ex bug t).description =
      t.take JIRA_DESCRIPTION_CHAR_LIMIT ∧
    (t.length ≤ JIRA_DESCRIPTION_CHAR_LIMIT →
      (create_issue_fields ex bug t).description = t) ∧
    (JIRA_DESCRIPTION_CHAR_LIMIT < t.length →
      (create_issue_fields ex bug t).description.length =
        JIRA_DESCRIPTION_CHAR_LIMIT) ∧
    (∃ suffix, (create_and_link_issue ex v w bug event).2 =
      Call.getComments bug.id ::
        Call.createIssue (create_issue_fields ex bug t) :: suffix) ∧
    (∀ c ∈ v.jira_comments_for_update bug2 event,
      Call.addComment k c ∈ (bug_create_or_update ex v w bug2 event).2) := by
  refine ⟨by simp [create_issue_fields], fun h => ?_, fun h => ?_, ?_,
    fun c hc => ?_⟩
  · have h2 : t.1.length ≤ JIRA_DESCRIPTION_CHAR_LIMIT := h
    simp only [create_issue_fields, String.take_eq,
      List.take_of_length_le h2]
  · have h2 : JIRA_DESCRIPTION_CHAR_LIMIT ≤ t.1.length := le_of_lt h
    have h3 : (create_issue_fields ex bug t).description =
        String.mk (t.1.take JIRA_DESCRIPTION_CHAR_LIMIT) := by
      simp only [create_issue_fields, String.take_eq]
    rw [h3]
    have h4 : (String.mk (t.1.take JIRA_DESCRIPTION_CHAR_LIMIT)).length =
        (t.1.take JIRA_DESCRIPTION_CHAR_LIMIT).length := rfl
    rw [h4, List.length_take]
    exact Nat.min_eq_left h2
  · simp only [create_and_link_issue, hcm]
    cases normalize_create_response
        (w.createIssue (create_issue_fields ex bug t)) with
    | error e => exact ⟨[], rfl⟩
    | ok d =>
      dsimp only
      by_cases he : has_error_indicators d = true
      · rw [if_pos he]
        exact ⟨[], rfl⟩
      · rw [if_neg he]
        split
        · exact ⟨_, rfl⟩
        · exact ⟨_, rfl⟩
  · rw [linked_update_path_eq ex v w bug2 event k hl hk]
    exact List.mem_cons_of_mem _
      (List.mem_append_left _ (List.mem_map_of_mem _ hc))

theorem c5_witness :
    wBase.getComments bugUnlinked.id = ["first comment"] ∧
    ("first comment" : String).length ≤ JIRA_DESCRIPTION_CHAR_LIMIT ∧
    (create_issue_fields exW bugUnlinked "first comment").description =
      "first comment" ∧
    (∃ suffix,
      (create_and_link_issue exW defaultVariant wBase bugUnlinked evBug).2 =
        Call.getComments bugUnlinked.id ::
          Call.createIssue
            (create_issue_fields exW bugUnlinked "first comment") ::
          suffix) :=
  ⟨rfl, by decide,
   (c5_description_truncation exW defaultVariant wBase bugUnlinked bugLinked
      evBug "first comment" [] "JBI-1" rfl (by decide) (by decide)).2.1
     (by decide),
   (c5_description_truncation exW defaultVariant wBase bugUnlinked bugLinked
      evBug "first comment" [] "JBI-1" rfl (by decide) (by decide)).2.2.2.1⟩

end JBI

namespace JBI

/-- A world whose re-fetched bug snapshot already carries the link JBI-1
while create returns JBI-2 (used by the C1 witness). -/
def wRace : World :=
  { getComments := fun _ => ["first comment"]
    createIssue := fun _ => .dict [("key", .str "JBI-2")]
    getBug := fun _ => bugLinked
    findUser := fun _ => []
    assigneeSetFails := false }

/-- C1: when the re-fetched bug snapshot carries a linked issue key K1
that is not none and differs from the just-created key K2,
`create_and_link_issue` deletes K2, performs no `update_bug` call and no
remote-link creation, and returns a handled `(True, ...)` result. -/
theorem c1_duplicate_race (ex : DefaultExecutor) (v : Variant) (w : World)
    (bug : BugzillaBug) (event : BugzillaWebhookEvent) (d : JDict)
    (t : String) (rest : List String) (k1 k2 : String)
    (hcm : w.getComments bug.id = t :: rest)
    (hcr : ∀ f, w.createIssue f = .dict d)
    (herr : has_error_indicators d = false)
    (hkey : response_key d = some k2)
    (hbz : (w.getBug bug.id).extract_from_see_also = some k1)
    (hne : k1 ≠ k2) :
    (create_and_link_issue ex v w bug event).1 =
      .ok (true, [("jira_response", .resp (.deleteIssue (some k2)))]) ∧
    Call.deleteIssue (some k2) ∈
      (create_and_link_issue ex v w bug event).2 ∧
    (create_and_link_issue ex v w bug event).2.all
      (fun c => !c.isUpdateBug && !c.isRemoteLink) = true := by
  have hb : ((some k2 : Option String) != some k1) = true := by
    have h2 : k2 ≠ k1 := fun hh => hne hh.symm
    simp [bne_iff_ne, h2]
  have heq : create_and_link_issue ex v w bug event =
      (.ok (true, [("jira_response", .resp (.deleteIssue (some k2)))]),
       [Call.getComments bug.id,
        Call.createIssue (create_issue_fields ex bug t),
        Call.getBug bug.id, Call.deleteIssue (some k2)]) := by
    simp only [create_and_link_issue, hcm]
    rw [hcr]
    simp only [normalize_create_response]
    simp [herr, hkey, hbz, hb]
  rw [heq]
  exact ⟨rfl, by simp,
    by simp [Call.isUpdateBug, Call.isRemoteLink]⟩

theorem c1_witness :
    ("JBI-1" : String) ≠ "JBI-2" ∧
    (create_and_link_issue exW defaultVariant wRace bugUnlinked evBug).1 =
      .ok (true, [("jira_response", .resp (.deleteIssue (some "JBI-2")))]) ∧
    Call.deleteIssue (some "JBI-2") ∈
      (create_and_link_issue exW defaultVariant wRace bugUnlinked evBug).2 ∧
    (create_and_link_issue exW defaultVariant wRace bugUnlinked
        evBug).2.all (fun c => !c.isUpdateBug && !c.isRemoteLink) = true :=
  ⟨by decide,
   (c1_duplicate_race exW defaultVariant wRace bugUnlinked evBug
      [("key", .str "JBI-2")] "first comment" [] "JBI-1" "JBI-2"
      rfl (fun _ => rfl) rfl rfl (by decide) (by decide)).1,
   (c1_duplicate_race exW defaultVariant wRace bugUnlinked evBug
      [("key", .str "JBI-2")] "first comment" [] "JBI-1" "JBI-2"
      rfl (fun _ => rfl) rfl rfl (by decide) (by decide)).2.1,
   (c1_duplicate_race exW defaultVariant wRace bugUnlinked evBug
      [("key", .str "JBI-2")] "first comment" [] "JBI-1" "JBI-2"
      rfl (fun _ => rfl) rfl rfl (by decide) (by decide)).2.2⟩

/-- A world whose create response is a list whose first element carries a
truthy `errorMessages` field (used by the C3 witness). -/
def wErrList : World :=
  { wBase with
    createIssue := fun _ => .list [[("errorMessages", .str "boom")]] }

/-- C3: the create response is normalized (a list yields its first
element) and a normalized record with a truthy `errors` or
`errorMessages` field makes `create_and_link_issue` raise a fatal
`ActionError`, with no further remote mutation for the event: the trace
stops at the create call (no bug update, no remote link, no hook). -/
theorem c3_create_response_validation (ex : DefaultExecutor) (v : Variant)
    (w : World) (bug : BugzillaBug) (event : BugzillaWebhookEvent)
    (t : String) (rest : List String) (r0 : JiraCreateResponse) (d : JDict)
    (hcm : w.getComments bug.id = t :: rest)
    (hcr : ∀ f, w.createIssue f = r0)
    (hn : normalize_create_response r0 = .ok d)
    (herr : has_error_indicators d = true) :
    (∀ d0 xs, normalize_create_response (.list (d0 :: xs)) = .ok d0) ∧
    (create_and_link_issue ex v w bug event).1 =
      .error (.actionError "response contains error") ∧
    (create_and_link_issue ex v w bug event).2 =
      [Call.getComments bug.id,
       Call.createIssue (create_issue_fields ex bug t)] := by
  have heq : create_and_link_issue ex v w bug event =
      (.error (.actionError "response contains error"),
       [Call.getComments bug.id,
        Call.createIssue (create_issue_fields ex bug t)]) := by
    simp only [create_and_link_issue, hcm]
    rw [hcr, hn]
    simp [herr]
  rw [heq]
  exact ⟨fun d0 xs => rfl, rfl, rfl⟩

theorem c3_witness :
    has_error_indicators [("errorMessages", .str "boom")] = true ∧
    (create_and_link_issue exW defaultVariant wErrList bugUnlinked
        evBug).1 = .error (.actionError "response contains error") ∧
    (create_and_link_issue exW defaultVariant wErrList bugUnlinked
        evBug).2 =
      [Call.getComments bugUnlinked.id,
       Call.createIssue
         (create_issue_fields exW bugUnlinked "first comment")] :=
  ⟨by decide,
   (c3_create_response_validation exW defaultVariant wErrList bugUnlinked
      evBug "first comment" [] (.list [[("errorMessages", .str "boom")]])
      [("errorMessages", .str "boom")] rfl (fun _ => rfl) rfl
      (by decide)).2.1,
   (c3_create_response_validation exW defaultVariant wErrList bugUnlinked
      evBug "first comment" [] (.list [[("errorMessages", .str "boom")]])
      [("errorMessages", .str "boom")] rfl (fun _ => rfl) rfl
      (by decide)).2.2⟩

end JBI

namespace JBI

/-- A reconciler whose resolution map sends FIXED to the empty string
(used by the C7 counterexample). -/
def aexEmptyVal : AssigneeAndStatusExecutor :=
  { base := exW, status_map := [], resolution_map := [("FIXED", "")] }

/-- A bug resolved as FIXED. -/
def bugFixed : BugzillaBug := { bugUnlinked with resolution := "FIXED" }

/-- A reconciler with empty maps (used by the C7 witness). -/
def aexMiss : AssigneeAndStatusExecutor :=
  { base := exW, status_map := [], resolution_map := [] }

/-- C7 counterexample: the bug's resolution "FIXED" is present in the
resolution map (mapped to the empty string) and the rule is active
(`is_new`), yet the code issues no resolution update call at all: the
source guards with Python truthiness (`if jira_resolution:`,
`default_with_assignee_and_status.py` line 124), so mere presence in the
map does not suffice. -/
theorem c7_counterexample :
    aexEmptyVal.resolution_map.lookup bugFixed.resolution = some "" ∧
    status_resolution_rule aexEmptyVal bugFixed [] (some "JBI-1") true =
      [] :=
  ⟨rfl, rfl⟩

/-- C7 (amended): when the status/resolution rule is active (is_new or
`status`/`resolution` changed): the issue's resolution is set to the
mapped value when the bug's resolution maps to a NON-EMPTY value in
resolution_map; the effective status key is the bug's resolution if
non-empty, else its status, and a NON-EMPTY status_map image of that key
is applied via set_issue_status; a key absent from both maps yields no
status or resolution call, and a linked-bug engine pass still reports
the event handled. -/
theorem c7_status_resolution (aex : AssigneeAndStatusExecutor)
    (bug : BugzillaBug) (changed : List String) (key : Option String)
    (is_new : Bool)
    (hact : is_new = true ∨ "status" ∈ changed ∨
      "resolution" ∈ changed) :
    (∀ jr, aex.resolution_map.lookup bug.resolution = some jr → jr ≠ "" →
      Call.updateIssueField key (.resolution jr) ∈
        status_resolution_rule aex bug changed key is_new) ∧
    (∀ js, aex.status_map.lookup
        (if bug.resolution.isEmpty then bug.status else bug.resolution) =
          some js → js ≠ "" →
      Call.setIssueStatus key js ∈
        status_resolution_rule aex bug changed key is_new) ∧
    (aex.resolution_map.lookup bug.resolution = none →
      aex.status_map.lookup
        (if bug.resolution.isEmpty then bug.status else bug.resolution) =
          none →
      status_resolution_rule aex bug changed key is_new = []) ∧
    (∀ (w : World) (bug2 : BugzillaBug) (k : String)
        (event : BugzillaWebhookEvent),
      bug2.extract_from_see_also = some k → k ≠ "" →
      ∃ r, (bug_create_or_update aex.base (assigneeStatusVariant aex) w
          bug2 event).1 = .ok (true, r)) := by
  refine ⟨fun jr hjr hne => ?_, fun js hjs hne => ?_,
    fun h1 h2 => ?_, fun w bug2 k event hl hk => ?_⟩
  · rcases hact with h | h | h <;>
      simp [status_resolution_rule, h, hjr, optStrTruthy,
        isEmpty_false_of_ne hne]
  · rcases hact with h | h | h <;>
      simp [status_resolution_rule, h, hjs, optStrTruthy,
        isEmpty_false_of_ne hne]
  · rcases hact with h | h | h <;>
      simp [status_resolution_rule, h, h1, h2, optStrTruthy]
  · exact ⟨_, by rw [linked_update_path_eq aex.base
      (assigneeStatusVariant aex) w bug2 event k hl hk]⟩

theorem c7_witness :
    aexW.resolution_map.lookup bugFixed.resolution = some "Fixed" ∧
    Call.updateIssueField (some "JBI-1") (.resolution "Fixed") ∈
      status_resolution_rule aexW bugFixed ["status"] (some "JBI-1")
        false ∧
    Call.setIssueStatus (some "JBI-1") "Done" ∈
      status_resolution_rule aexW bugFixed ["status"] (some "JBI-1")
        false ∧
    status_resolution_rule aexMiss bugFixed ["status"] (some "JBI-1")
        false = [] ∧
    (∃ r, (bug_create_or_update aexW.base (assigneeStatusVariant aexW)
        wBase bugLinked evBug).1 = .ok (true, r)) :=
  ⟨rfl,
   (c7_status_resolution aexW bugFixed ["status"] (some "JBI-1") false
      (Or.inr (Or.inl (by decide)))).1 "Fixed" rfl (by decide),
   (c7_status_resolution aexW bugFixed ["status"] (some "JBI-1") false
      (Or.inr (Or.inl (by decide)))).2.1 "Done" rfl (by decide),
   (c7_status_resolution aexMiss bugFixed ["status"] (some "JBI-1") false
      (Or.inr (Or.inl (by decide)))).2.2.1 rfl rfl,
   (c7_status_resolution aexW bugFixed ["status"] (some "JBI-1") false
      (Or.inr (Or.inl (by decide)))).2.2.2 wBase bugLinked "JBI-1" evBug
     (by decide) (by decide)⟩

/-- Worlds for the C8 witness: one account with a failing set call, and
no matching account. -/
def wOneFail : World := { wBase with assigneeSetFails := true }

/-- World whose user lookup finds no account. -/
def wNoUser : World := { wBase with findUser := fun _ => [] }

/-- C8: with the assignee rule active and a non-sentinel assignee: a
single-account lookup leads to a set attempt (alone on success, followed
by the clear fallback when that specific call fails at transport level,
the rule still returning normally); a lookup with zero or multiple
accounts clears the assignee via `update_issue_field` with assignee none
when `is_new = false`. -/
theorem c8_assignee_fallback (w : World) (bug : BugzillaBug)
    (changed : List String) (key : Option String) (is_new : Bool)
    (hact : is_new = true ∨ "assigned_to" ∈ changed)
    (hsent : bug.assigned_to ≠ "nobody@mozilla.org") :
    (∀ acct, w.findUser bug.assigned_to = [acct] →
      w.assigneeSetFails = false →
      assignee_rule w bug changed key is_new =
        [Call.findUser bug.assigned_to,
         Call.updateIssueField key (.assignee (some acct))]) ∧
    (∀ acct, w.findUser bug.assigned_to = [acct] →
      w.assigneeSetFails = true →
      assignee_rule w bug changed key is_new =
        Call.findUser bug.assigned_to ::
          Call.updateIssueField key (.assignee (some acct)) ::
          clear_assignee is_new key) ∧
    ((w.findUser bug.assigned_to).length ≠ 1 → is_new = false →
      assignee_rule w bug changed key is_new =
        [Call.findUser bug.assigned_to,
         Call.updateIssueField key (.assignee none)]) := by
  have hs : (bug.assigned_to == "nobody@mozilla.org") = false := by
    simp [hsent]
  refine ⟨fun acct hu hf => ?_, fun acct hu hf => ?_,
    fun hlen hnew => ?_⟩
  · rcases hact with h | h <;> simp [assignee_rule, h, hs, hu, hf]
  · rcases hact with h | h <;> simp [assignee_rule, h, hs, hu, hf]
  · rcases hact with h | h
    · exact absurd h (by simp [hnew])
    · simp [assignee_rule, h, hs, hlen, clear_assignee, hnew]

theorem c8_witness :
    bugUnlinked.assigned_to ≠ "nobody@mozilla.org" ∧
    assignee_rule wBase bugUnlinked ["assigned_to"] (some "JBI-1") false =
      [Call.findUser "dev@example.com",
       Call.updateIssueField (some "JBI-1")
         (.assignee (some "acct-1"))] ∧
    assignee_rule wOneFail bugUnlinked ["assigned_to"] (some "JBI-1")
        false =
      Call.findUser "dev@example.com" ::
        Call.updateIssueField (some "JBI-1") (.assignee (some "acct-1")) ::
        clear_assignee false (some "JBI-1") ∧
    assignee_rule wNoUser bugUnlinked ["assigned_to"] (some "JBI-1")
        false =
      [Call.findUser "dev@example.com",
       Call.updateIssueField (some "JBI-1") (.assignee none)] :=
  ⟨by decide,
   (c8_assignee_fallback wBase bugUnlinked ["assigned_to"] (some "JBI-1")
      false (Or.inr (by decide)) (by decide)).1 "acct-1" rfl rfl,
   (c8_assignee_fallback wOneFail bugUnlinked ["assigned_to"]
      (some "JBI-1") false (Or.inr (by decide)) (by decide)).2.1 "acct-1"
     rfl rfl,
   (c8_assignee_fallback wNoUser bugUnlinked ["assigned_to"]
      (some "JBI-1") false (Or.inr (by decide)) (by decide)).2.2
     (by decide) rfl⟩

/-- A bug assigned to the sentinel "unassigned" identity. -/
def bugNobody : BugzillaBug :=
  { bugUnlinked with assigned_to := "nobody@mozilla.org" }

/-- C9: in the assignee rule, a bug assigned to the sentinel
nobody@mozilla.org clears the issue's assignee via `update_issue_field`
with assignee none when `is_new = false` (and the rule active through
the changed-field set), and makes no remote call at all when
`is_new = true`. -/
theorem c9_sentinel_assignee (w : World) (bug : BugzillaBug)
    (changed : List String) (key : Option String)
    (hs : bug.assigned_to = "nobody@mozilla.org") :
    ("assigned_to" ∈ changed →
      assignee_rule w bug changed key false =
        [Call.updateIssueField key (.assignee none)]) ∧
    assignee_rule w bug changed key true = [] := by
  constructor
  · intro hch
    simp [assignee_rule, hch, hs, clear_assignee]
  · simp [assignee_rule, hs, clear_assignee]

theorem c9_witness :
    bugNobody.assigned_to = "nobody@mozilla.org" ∧
    assignee_rule wBase bugNobody ["assigned_to"] (some "JBI-1") false =
      [Call.updateIssueField (some "JBI-1") (.assignee none)] ∧
    assignee_rule wBase bugNobody ["assigned_to"] (some "JBI-1") true =
      [] :=
  ⟨rfl,
   (c9_sentinel_assignee wBase bugNobody ["assigned_to"] (some "JBI-1")
      rfl).1 (by decide),
   (c9_sentinel_assignee wBase bugNobody ["assigned_to"] (some "JBI-1")
      rfl).2⟩

end JBI
